import Mathlib

/-!
Shallow embedding of the starlight command relay:
  * `src/PicoProject/main.py` — the device relay: a dispatch loop that reads
    newline-terminated ASCII lines from UART and issues USB-HID mouse/keyboard
    calls (`type_text`, the `while True` dispatch loop);
  * `src/Piproject/flask_app/app.py` — the host bridge: Flask handlers that
    encode JSON request bodies into command lines and write them to the serial
    port (`mouse_control`, `send_key`, `send_to_pico`).

Lines are modelled as `List Char`.  The wire format is ASCII text lines
(the spec's data model), so the Python string predicates (`str.isalpha`,
`str.isdigit`, `str.strip`) are embedded in their ASCII fragment; theorems
that quantify over payload characters carry an ASCII hypothesis where the
Unicode behaviour of Python would differ.
-/

namespace Starlight

/-! ### Keycode constants (adafruit_hid.keycode, USB HID usage ids) -/

namespace Keycode

def SHIFT : Nat := 225

def RIGHT_SHIFT : Nat := 229

def CONTROL : Nat := 224

def ALT : Nat := 226

def DELETE : Nat := 76

def WINDOWS : Nat := 227

def ENTER : Nat := 40

def BACKSPACE : Nat := 42

def SPACE : Nat := 44

def MINUS : Nat := 45

def COMMA : Nat := 54

def PERIOD : Nat := 55

def FORWARD_SLASH : Nat := 56

def ONE : Nat := 30

def TWO : Nat := 31

def THREE : Nat := 32

def FOUR : Nat := 33

def ZERO : Nat := 39

end Keycode

/-- `getattr(Keycode, char.upper())` for an ASCII letter: the usage id of the
letter key (`Keycode.A = 4`, ..., `Keycode.Z = 29`). -/
def letterKeycode (c : Char) : Nat := 4 + (c.toUpper.toNat - 65)

/-- `num_map` lookup followed by `getattr(Keycode, key_name)`:
`'1' ↦ Keycode.ONE = 30`, ..., `'9' ↦ 38`, `'0' ↦ Keycode.ZERO = 39`. -/
def digitKeycode (c : Char) : Nat :=
  if c = '0' then Keycode.ZERO else Keycode.ONE + (c.toNat - 49)

/-- `Mouse.LEFT_BUTTON` in adafruit_hid. -/
def LEFT_BUTTON : Nat := 1

/-- `Mouse.RIGHT_BUTTON` in adafruit_hid. -/
def RIGHT_BUTTON : Nat := 2

/-- `move_step = 10` in `main.py`. -/
def move_step : Int := 10

/-! ### HID / serial effects emitted by the device relay -/

/-- One API call performed by the dispatch loop.  `uartWrite` is the effect a
`uart.write(...)` call would produce; the relay source never performs one, and
the constructor exists so that this absence is statable. -/
inductive Ev : Type where
  | mouseMove (x y : Int)
  | mouseClick (button : Nat)
  | kbPress (keys : List Nat)
  | kbReleaseAll
  | kbSend (keys : List Nat)
  | uartWrite (data : List Char)
deriving DecidableEq, Repr

/-- Is this effect a UART transmission back to the host? -/
def Ev.isUart : Ev → Bool
  | .uartWrite _ => true
  | _ => false

/-! ### Python string primitives (ASCII fragment) -/

/-- ASCII whitespace stripped by Python's `str.strip()`. -/
def pyWs (c : Char) : Bool :=
  c = ' ' || c = '\t' || c = '\n' || c = '\r' || c = '\x0b' || c = '\x0c'

/-- `str.lstrip()` on ASCII text. -/
def pyLstrip (l : List Char) : List Char := l.dropWhile pyWs

/-- `str.rstrip()` on ASCII text. -/
def pyRstrip (l : List Char) : List Char := (l.reverse.dropWhile pyWs).reverse

/-- `str.strip()` on ASCII text. -/
def pyStrip (l : List Char) : List Char := pyRstrip (pyLstrip l)

/-- `str.isupper()` for one ASCII character. -/
def isAsciiUpper (c : Char) : Bool := 65 ≤ c.toNat && c.toNat ≤ 90

/-- lowercase ASCII letter test. -/
def isAsciiLower (c : Char) : Bool := 97 ≤ c.toNat && c.toNat ≤ 122

/-- `str.isalpha()` restricted to ASCII. -/
def isAsciiAlpha (c : Char) : Bool := isAsciiUpper c || isAsciiLower c

/-- `str.isdigit()` restricted to ASCII. -/
def isAsciiDigit (c : Char) : Bool := 48 ≤ c.toNat && c.toNat ≤ 57

/-- `l` starts with `tag` (Python `str.startswith`). -/
def startsWith (tag l : List Char) : Bool := l.take tag.length = tag

/-- Python `cmd.split(":", 1)[1]`: everything after the first colon. -/
def afterFirstColon (l : List Char) : List Char :=
  (l.dropWhile (fun c => c ≠ ':')).drop 1

/-- Python `cmd.split(":")[1]`: the field between the first and second colon. -/
def secondColonField (l : List Char) : List Char :=
  (afterFirstColon l).takeWhile (fun c => c ≠ ':')

/-! ### `type_text` (main.py lines 20–73)

The body of the `for char in str_text` loop, one character at a time. -/

/-- The HID calls the loop body of `type_text` performs for one character
(the `time.sleep(0.05)` is not an HID effect and is not modelled). -/
def charEvents (c : Char) : List Ev :=
  if isAsciiAlpha c then
    if isAsciiUpper c then
      [Ev.kbPress [Keycode.SHIFT, letterKeycode c], Ev.kbReleaseAll]
    else
      [Ev.kbSend [letterKeycode c]]
  else if isAsciiDigit c then [Ev.kbSend [digitKeycode c]]
  else if c = ' ' then [Ev.kbSend [Keycode.SPACE]]
  else if c = '\n' then [Ev.kbSend [Keycode.ENTER]]
  else if c = '.' then [Ev.kbSend [Keycode.PERIOD]]
  else if c = ',' then [Ev.kbSend [Keycode.COMMA]]
  else if c = '!' then [Ev.kbPress [Keycode.SHIFT, Keycode.ONE], Ev.kbReleaseAll]
  else if c = '?' then [Ev.kbPress [Keycode.SHIFT, Keycode.FORWARD_SLASH], Ev.kbReleaseAll]
  else if c = '-' then [Ev.kbSend [Keycode.MINUS]]
  else if c = '_' then [Ev.kbPress [Keycode.SHIFT, Keycode.MINUS], Ev.kbReleaseAll]
  else if c = '@' then [Ev.kbPress [Keycode.SHIFT, Keycode.TWO], Ev.kbReleaseAll]
  else if c = '#' then [Ev.kbPress [Keycode.SHIFT, Keycode.THREE], Ev.kbReleaseAll]
  else if c = '$' then [Ev.kbPress [Keycode.SHIFT, Keycode.FOUR], Ev.kbReleaseAll]
  else []

/-- `type_text(str_text)`: iterate the loop body over the payload. -/
def type_text (s : List Char) : List Ev := s.flatMap charEvents

/-! ### The dispatch loop (main.py lines 75–119) -/

def upTok : List Char := ['u', 'p']

def downTok : List Char := ['d', 'o', 'w', 'n']

def leftTok : List Char := ['l', 'e', 'f', 't']

def rightTok : List Char := ['r', 'i', 'g', 'h', 't']

def leftClickTok : List Char := ['l', 'e', 'f', 't', '_', 'c', 'l', 'i', 'c', 'k']

def rightClickTok : List Char := ['r', 'i', 'g', 'h', 't', '_', 'c', 'l', 'i', 'c', 'k']

def cmdTag : List Char := ['C', 'M', 'D', ':']

def textTag : List Char := ['T', 'E', 'X', 'T', ':']

/-- Which branch of the `if/elif` chain a stripped line selects, recording the
data that branch extracts (`key_name` for `CMD:`, `str_text` for `TEXT:`). -/
inductive Shape : Type where
  | up | down | left | right | leftClick | rightClick
  | cmdKey (name : List Char)
  | text (payload : List Char)
  | unknown
deriving DecidableEq, Repr

/-- The `if cmd == 'up' ... elif cmd.startswith("CMD:") ... elif
cmd.startswith("TEXT:")` chain on the stripped line `cmd`. -/
def classify (cmd : List Char) : Shape :=
  if cmd = upTok then .up
  else if cmd = downTok then .down
  else if cmd = leftTok then .left
  else if cmd = rightTok then .right
  else if cmd = leftClickTok then .leftClick
  else if cmd = rightClickTok then .rightClick
  else if startsWith cmdTag cmd then .cmdKey (secondColonField cmd)
  else if startsWith textTag cmd then .text (afterFirstColon cmd)
  else .unknown

/-- The HID calls each branch performs. -/
def shapeEvents : Shape → List Ev
  | .up => [Ev.mouseMove 0 (-move_step)]
  | .down => [Ev.mouseMove 0 move_step]
  | .left => [Ev.mouseMove (-move_step) 0]
  | .right => [Ev.mouseMove move_step 0]
  | .leftClick => [Ev.mouseClick LEFT_BUTTON]
  | .rightClick => [Ev.mouseClick RIGHT_BUTTON]
  | .cmdKey n =>
      if n = ['S', 'H', 'I', 'F', 'T'] then [Ev.kbSend [Keycode.RIGHT_SHIFT]]
      else if n = ['B', 'A', 'C', 'K', 'S', 'P', 'A', 'C', 'E'] then
        [Ev.kbSend [Keycode.BACKSPACE]]
      else if n = ['E', 'N', 'T', 'E', 'R'] then [Ev.kbSend [Keycode.ENTER]]
      else if n = ['C', 'T', 'R', 'L', '_', 'A', 'L', 'T', '_', 'D', 'E', 'L'] then
        [Ev.kbPress [Keycode.CONTROL, Keycode.ALT, Keycode.DELETE], Ev.kbReleaseAll]
      else if n = ['W', 'I', 'N', '_', '3'] then
        [Ev.kbPress [Keycode.WINDOWS, Keycode.THREE], Ev.kbReleaseAll]
      else []
  | .text p => type_text p
  | .unknown => []

/-- One iteration of the `while True` loop on a received line:
`cmd = line.decode('utf-8').strip()`, then the dispatch chain. -/
def dispatchLine (line : List Char) : List Ev :=
  shapeEvents (classify (pyStrip line))

/-- The loop over a sequence of received lines, one dispatch per line. -/
def runLoop (lines : List (List Char)) : List Ev := lines.flatMap dispatchLine

/-! ### Keyboard press state

The adafruit_hid `Keyboard` object is the only stateful HID handle the relay
touches: `press` adds keys to the currently-pressed set, `release_all` clears
it, and `send` presses then releases its keys.  Threading this state through
the event list makes the statelessness claims statable. -/

/-- Effect of one API call on the set of currently pressed keys. -/
def kbStep (s : Finset Nat) : Ev → Finset Nat
  | .kbPress ks => s ∪ ks.toFinset
  | .kbReleaseAll => ∅
  | .kbSend ks => (s ∪ ks.toFinset) \ ks.toFinset
  | _ => s

/-- Pressed-key set after a sequence of calls. -/
def kbAfter (s : Finset Nat) (evs : List Ev) : Finset Nat := evs.foldl kbStep s

/-! ### Host bridge (src/Piproject/flask_app/app.py) -/

/-- The JSON body of a POST to the command endpoints; a field is `none` when
the key is absent (`'hid_action' in data` etc.). -/
structure ReqBody : Type where
  hid_action : Option (List Char)
  hid_key : Option (List Char)
  hid_text : Option (List Char)
deriving DecidableEq, Repr

/-- What a Flask handler did: the serial writes it performed (each element the
exact bytes of one `ser.write` call) and the value it returned. -/
structure HandlerResult : Type where
  writes : List (List Char)
  response : Option (List Char)
deriving DecidableEq, Repr

/-- `send_to_pico(message)`: the bytes of the single serial write,
`(message + "\n").encode()`. -/
def send_to_pico (message : List Char) : List Char := message ++ ['\n']

/-- `POST /api/mouse` handler `mouse_control`: if `hid_action` is present,
forward it verbatim; the function body ends without a `return`, so the
returned value is Python's implicit `None`. -/
def mouse_control (data : ReqBody) : HandlerResult :=
  match data.hid_action with
  | some a => ⟨[send_to_pico a], none⟩
  | none => ⟨[], none⟩

/-- `POST /api/keyboard` handler `send_key`: `hid_key` gets the `CMD:` tag,
else `hid_text` gets the `TEXT:` tag; again no `return` statement. -/
def send_key (data : ReqBody) : HandlerResult :=
  match data.hid_key with
  | some k => ⟨[send_to_pico (cmdTag ++ k)], none⟩
  | none =>
    match data.hid_text with
    | some t => ⟨[send_to_pico (textTag ++ t)], none⟩
    | none => ⟨[], none⟩

/-- `uart.readline()` on the device side: the first line of the byte stream
(terminator included when present) and the remaining bytes. -/
def readLine1 (bs : List Char) : List Char × List Char :=
  match bs.dropWhile (fun c => c ≠ '\n') with
  | [] => (bs.takeWhile (fun c => c ≠ '\n'), [])
  | _ :: tl => (bs.takeWhile (fun c => c ≠ '\n') ++ ['\n'], tl)

/-! ### Helper lemmas on the string primitives -/

theorem takeWhile_append_all (p : Char → Bool) (xs ys : List Char)
    (h : ∀ c ∈ xs, p c = true) :
    List.takeWhile p (xs ++ ys) = xs ++ List.takeWhile p ys := by
  induction xs with
  | nil => simp
  | cons a l ih =>
    have ha : p a = true := h a (by simp)
    have ih2 := ih (fun c hc => h c (by simp [hc]))
    simp [List.takeWhile_cons, ha, ih2]

theorem dropWhile_append_all (p : Char → Bool) (xs ys : List Char)
    (h : ∀ c ∈ xs, p c = true) :
    List.dropWhile p (xs ++ ys) = List.dropWhile p ys := by
  induction xs with
  | nil => simp
  | cons a l ih =>
    have ha : p a = true := h a (by simp)
    have ih2 := ih (fun c hc => h c (by simp [hc]))
    simp [List.dropWhile_cons, ha, ih2]

theorem pyRstrip_append (xs ys : List Char) (c : Char) (b : List Char)
    (hx : xs = b ++ [c]) (hc : pyWs c = false) :
    pyRstrip (xs ++ ys) = xs ++ pyRstrip ys := by
  subst hx
  simp only [pyRstrip, List.append_assoc, List.reverse_append, List.reverse_cons,
    List.reverse_nil, List.nil_append, List.cons_append]
  rw [List.dropWhile_append]
  by_cases hs : (List.dropWhile pyWs ys.reverse).isEmpty
  · rw [List.isEmpty_iff] at hs
    simp [hs, List.dropWhile_cons, hc]
  · simp only [hs, if_false]
    simp

theorem pyStrip_cmdTag (r : List Char) :
    pyStrip (cmdTag ++ r) = cmdTag ++ pyRstrip r := by
  have h1 : pyLstrip (cmdTag ++ r) = cmdTag ++ r := by
    simp [pyLstrip, cmdTag, List.dropWhile_cons, pyWs]
  rw [pyStrip, h1, pyRstrip_append cmdTag r ':' ['C', 'M', 'D'] (by decide) (by decide)]

theorem pyStrip_textTag (r : List Char) :
    pyStrip (textTag ++ r) = textTag ++ pyRstrip r := by
  have h1 : pyLstrip (textTag ++ r) = textTag ++ r := by
    simp [pyLstrip, textTag, List.dropWhile_cons, pyWs]
  rw [pyStrip, h1,
    pyRstrip_append textTag r ':' ['T', 'E', 'X', 'T'] (by decide) (by decide)]

theorem classify_cmdTag (r : List Char) :
    classify (cmdTag ++ r) = Shape.cmdKey (r.takeWhile (fun c => c ≠ ':')) := by
  simp [classify, cmdTag, upTok, downTok, leftTok, rightTok, leftClickTok,
    rightClickTok, startsWith, textTag, secondColonField, afterFirstColon,
    List.dropWhile]

theorem classify_textTag (r : List Char) :
    classify (textTag ++ r) = Shape.text r := by
  simp [classify, cmdTag, upTok, downTok, leftTok, rightTok, leftClickTok,
    rightClickTok, startsWith, textTag, afterFirstColon, List.dropWhile]


/-! ### Keystroke (chord) view of the event stream

`chords` recovers, from the raw API-call list, the sequence of key
combinations struck: a `send` is one combination, a `press` immediately
followed by `release_all` is one combination.  `specCharKeystrokes` is NOT
translated from the source: it renders the spec sentence "each character
classified as letter, digit, or supported punctuation produces exactly one
keystroke event with the correct SHIFT modifier state" as a per-character
table, to be compared against what `type_text` emits. -/

def chords : List Ev → List (List Nat)
  | [] => []
  | Ev.kbSend ks :: rest => ks :: chords rest
  | Ev.kbPress ks :: Ev.kbReleaseAll :: rest => ks :: chords rest
  | _ :: rest => chords rest

def specCharKeystrokes (c : Char) : List (List Nat) :=
  if isAsciiUpper c then [[Keycode.SHIFT, letterKeycode c]]
  else if isAsciiLower c then [[letterKeycode c]]
  else if isAsciiDigit c then [[digitKeycode c]]
  else if c = '!' then [[Keycode.SHIFT, Keycode.ONE]]
  else if c = '?' then [[Keycode.SHIFT, Keycode.FORWARD_SLASH]]
  else if c = '_' then [[Keycode.SHIFT, Keycode.MINUS]]
  else if c = '@' then [[Keycode.SHIFT, Keycode.TWO]]
  else if c = '#' then [[Keycode.SHIFT, Keycode.THREE]]
  else if c = '$' then [[Keycode.SHIFT, Keycode.FOUR]]
  else if c = ' ' then [[Keycode.SPACE]]
  else if c = '\n' then [[Keycode.ENTER]]
  else if c = '.' then [[Keycode.PERIOD]]
  else if c = ',' then [[Keycode.COMMA]]
  else if c = '-' then [[Keycode.MINUS]]
  else []

theorem chords_charEvents (c : Char) (rest : List Ev) :
    chords (charEvents c ++ rest) = specCharKeystrokes c ++ chords rest := by
  by_cases hU : isAsciiUpper c = true
  · have e1 : charEvents c = [Ev.kbPress [Keycode.SHIFT, letterKeycode c], Ev.kbReleaseAll] := by
      simp [charEvents, isAsciiAlpha, hU]
    have e2 : specCharKeystrokes c = [[Keycode.SHIFT, letterKeycode c]] := by
      simp [specCharKeystrokes, hU]
    rw [e1, e2]
    simp [chords]
  by_cases hL : isAsciiLower c = true
  · have e1 : charEvents c = [Ev.kbSend [letterKeycode c]] := by
      simp [charEvents, isAsciiAlpha, hU, hL]
    have e2 : specCharKeystrokes c = [[letterKeycode c]] := by
      simp [specCharKeystrokes, hU, hL]
    rw [e1, e2]
    simp [chords]
  by_cases hD : isAsciiDigit c = true
  · have e1 : charEvents c = [Ev.kbSend [digitKeycode c]] := by
      simp [charEvents, isAsciiAlpha, hU, hL, hD]
    have e2 : specCharKeystrokes c = [[digitKeycode c]] := by
      simp [specCharKeystrokes, hU, hL, hD]
    rw [e1, e2]
    simp [chords]
  by_cases hsp : c = ' '
  · subst hsp
    rw [(by decide : charEvents ' ' = [Ev.kbSend [Keycode.SPACE]]),
      (by decide : specCharKeystrokes ' ' = [[Keycode.SPACE]])]
    simp [chords]
  by_cases hnl : c = '\n'
  · subst hnl
    rw [(by decide : charEvents '\n' = [Ev.kbSend [Keycode.ENTER]]),
      (by decide : specCharKeystrokes '\n' = [[Keycode.ENTER]])]
    simp [chords]
  by_cases hdot : c = '.'
  · subst hdot
    rw [(by decide : charEvents '.' = [Ev.kbSend [Keycode.PERIOD]]),
      (by decide : specCharKeystrokes '.' = [[Keycode.PERIOD]])]
    simp [chords]
  by_cases hcom : c = ','
  · subst hcom
    rw [(by decide : charEvents ',' = [Ev.kbSend [Keycode.COMMA]]),
      (by decide : specCharKeystrokes ',' = [[Keycode.COMMA]])]
    simp [chords]
  by_cases hexc : c = '!'
  · subst hexc
    rw [(by decide : charEvents '!' =
        [Ev.kbPress [Keycode.SHIFT, Keycode.ONE], Ev.kbReleaseAll]),
      (by decide : specCharKeystrokes '!' = [[Keycode.SHIFT, Keycode.ONE]])]
    simp [chords]
  by_cases hq : c = '?'
  · subst hq
    rw [(by decide : charEvents '?' =
        [Ev.kbPress [Keycode.SHIFT, Keycode.FORWARD_SLASH], Ev.kbReleaseAll]),
      (by decide : specCharKeystrokes '?' = [[Keycode.SHIFT, Keycode.FORWARD_SLASH]])]
    simp [chords]
  by_cases hmin : c = '-'
  · subst hmin
    rw [(by decide : charEvents '-' = [Ev.kbSend [Keycode.MINUS]]),
      (by decide : specCharKeystrokes '-' = [[Keycode.MINUS]])]
    simp [chords]
  by_cases hund : c = '_'
  · subst hund
    rw [(by decide : charEvents '_' =
        [Ev.kbPress [Keycode.SHIFT, Keycode.MINUS], Ev.kbReleaseAll]),
      (by decide : specCharKeystrokes '_' = [[Keycode.SHIFT, Keycode.MINUS]])]
    simp [chords]
  by_cases hat : c = '@'
  · subst hat
    rw [(by decide : charEvents '@' =
        [Ev.kbPress [Keycode.SHIFT, Keycode.TWO], Ev.kbReleaseAll]),
      (by decide : specCharKeystrokes '@' = [[Keycode.SHIFT, Keycode.TWO]])]
    simp [chords]
  by_cases hhash : c = '#'
  · subst hhash
    rw [(by decide : charEvents '#' =
        [Ev.kbPress [Keycode.SHIFT, Keycode.THREE], Ev.kbReleaseAll]),
      (by decide : specCharKeystrokes '#' = [[Keycode.SHIFT, Keycode.THREE]])]
    simp [chords]
  by_cases hdol : c = '$'
  · subst hdol
    rw [(by decide : charEvents '$' =
        [Ev.kbPress [Keycode.SHIFT, Keycode.FOUR], Ev.kbReleaseAll]),
      (by decide : specCharKeystrokes '$' = [[Keycode.SHIFT, Keycode.FOUR]])]
    simp [chords]
  have e1 : charEvents c = [] := by
    simp [charEvents, isAsciiAlpha, hU, hL, hD, hsp, hnl, hdot, hcom, hexc,
      hq, hmin, hund, hat, hhash, hdol]
  have e2 : specCharKeystrokes c = [] := by
    simp [specCharKeystrokes, hU, hL, hD, hsp, hnl, hdot, hcom, hexc, hq,
      hmin, hund, hat, hhash, hdol]
  rw [e1, e2]
  simp

theorem chords_type_text (p : List Char) :
    chords (type_text p) = p.flatMap specCharKeystrokes := by
  induction p with
  | nil => simp [type_text, chords]
  | cons a l ih =>
    simp only [type_text, List.flatMap_cons] at *
    rw [chords_charEvents, ih]

/-! ### Case analysis of `type_text` blocks, keyboard state, UART silence -/

theorem charEvents_cases (c : Char) :
    charEvents c = [] ∨ (∃ ks, charEvents c = [Ev.kbSend ks]) ∨
      (∃ ks, charEvents c = [Ev.kbPress ks, Ev.kbReleaseAll]) := by
  by_cases hU : isAsciiUpper c = true
  · exact Or.inr (Or.inr ⟨[Keycode.SHIFT, letterKeycode c],
      by simp [charEvents, isAsciiAlpha, hU]⟩)
  by_cases hL : isAsciiLower c = true
  · exact Or.inr (Or.inl ⟨[letterKeycode c],
      by simp [charEvents, isAsciiAlpha, hU, hL]⟩)
  by_cases hD : isAsciiDigit c = true
  · exact Or.inr (Or.inl ⟨[digitKeycode c],
      by simp [charEvents, isAsciiAlpha, hU, hL, hD]⟩)
  by_cases hsp : c = ' '
  · subst hsp; exact Or.inr (Or.inl ⟨[Keycode.SPACE], by decide⟩)
  by_cases hnl : c = '\n'
  · subst hnl; exact Or.inr (Or.inl ⟨[Keycode.ENTER], by decide⟩)
  by_cases hdot : c = '.'
  · subst hdot; exact Or.inr (Or.inl ⟨[Keycode.PERIOD], by decide⟩)
  by_cases hcom : c = ','
  · subst hcom; exact Or.inr (Or.inl ⟨[Keycode.COMMA], by decide⟩)
  by_cases hexc : c = '!'
  · subst hexc; exact Or.inr (Or.inr ⟨[Keycode.SHIFT, Keycode.ONE], by decide⟩)
  by_cases hq : c = '?'
  · subst hq
    exact Or.inr (Or.inr ⟨[Keycode.SHIFT, Keycode.FORWARD_SLASH], by decide⟩)
  by_cases hmin : c = '-'
  · subst hmin; exact Or.inr (Or.inl ⟨[Keycode.MINUS], by decide⟩)
  by_cases hund : c = '_'
  · subst hund; exact Or.inr (Or.inr ⟨[Keycode.SHIFT, Keycode.MINUS], by decide⟩)
  by_cases hat : c = '@'
  · subst hat; exact Or.inr (Or.inr ⟨[Keycode.SHIFT, Keycode.TWO], by decide⟩)
  by_cases hhash : c = '#'
  · subst hhash; exact Or.inr (Or.inr ⟨[Keycode.SHIFT, Keycode.THREE], by decide⟩)
  by_cases hdol : c = '$'
  · subst hdol; exact Or.inr (Or.inr ⟨[Keycode.SHIFT, Keycode.FOUR], by decide⟩)
  exact Or.inl (by
    simp [charEvents, isAsciiAlpha, hU, hL, hD, hsp, hnl, hdot, hcom, hexc,
      hq, hmin, hund, hat, hhash, hdol])

theorem kbAfter_append (s : Finset Nat) (a b : List Ev) :
    kbAfter s (a ++ b) = kbAfter (kbAfter s a) b := by
  simp [kbAfter, List.foldl_append]

theorem kbAfter_charEvents (c : Char) : kbAfter ∅ (charEvents c) = ∅ := by
  rcases charEvents_cases c with h | ⟨ks, h⟩ | ⟨ks, h⟩ <;>
    simp [h, kbAfter, kbStep]

theorem kbAfter_type_text (p : List Char) : kbAfter ∅ (type_text p) = ∅ := by
  induction p with
  | nil => simp [type_text, kbAfter]
  | cons a l ih =>
    simp only [type_text, List.flatMap_cons] at *
    rw [kbAfter_append, kbAfter_charEvents, ih]

theorem kbAfter_shapeEvents (sh : Shape) : kbAfter ∅ (shapeEvents sh) = ∅ := by
  cases sh with
  | cmdKey n =>
    simp only [shapeEvents]
    split_ifs <;> simp [kbAfter, kbStep]
  | text p => exact kbAfter_type_text p
  | _ => simp [shapeEvents, kbAfter, kbStep]

theorem noUart_charEvents (c : Char) :
    (charEvents c).filter Ev.isUart = [] := by
  rcases charEvents_cases c with h | ⟨ks, h⟩ | ⟨ks, h⟩ <;>
    simp [h, Ev.isUart]

theorem noUart_type_text (p : List Char) :
    (type_text p).filter Ev.isUart = [] := by
  induction p with
  | nil => simp [type_text]
  | cons a l ih =>
    simp only [type_text, List.flatMap_cons] at *
    rw [List.filter_append, noUart_charEvents, ih]
    rfl

theorem noUart_shapeEvents (sh : Shape) :
    (shapeEvents sh).filter Ev.isUart = [] := by
  cases sh with
  | cmdKey n =>
    simp only [shapeEvents]
    split_ifs <;> simp [Ev.isUart]
  | text p => exact noUart_type_text p
  | _ => simp [shapeEvents, Ev.isUart]

/-! ### Shape families and their mutual exclusion -/

/-- The six mouse tokens of the dispatch chain. -/
def mouseTokens : List (List Char) :=
  [upTok, downTok, leftTok, rightTok, leftClickTok, rightClickTok]

/-- A stripped line matches some recognized shape of the dispatch chain. -/
def recognizedShape (cmd : List Char) : Bool :=
  mouseTokens.contains cmd || startsWith cmdTag cmd || startsWith textTag cmd

/-- How many of the three shape families a stripped line matches. -/
def shapeCount (cmd : List Char) : Nat :=
  (if mouseTokens.contains cmd then 1 else 0) +
    (if startsWith cmdTag cmd then 1 else 0) +
    (if startsWith textTag cmd then 1 else 0)

/-- The supported `CMD:` names. -/
def supportedCmdNames : List (List Char) :=
  [['S', 'H', 'I', 'F', 'T'],
   ['B', 'A', 'C', 'K', 'S', 'P', 'A', 'C', 'E'],
   ['E', 'N', 'T', 'E', 'R'],
   ['C', 'T', 'R', 'L', '_', 'A', 'L', 'T', '_', 'D', 'E', 'L'],
   ['W', 'I', 'N', '_', '3']]

theorem tags_exclusive (cmd : List Char) :
    ¬(startsWith cmdTag cmd = true ∧ startsWith textTag cmd = true) := by
  rintro ⟨hc, ht⟩
  simp only [startsWith, decide_eq_true_eq] at hc ht
  have h4 : List.take 4 cmd = cmdTag := hc
  have h5 : List.take 5 cmd = textTag := ht
  have e : cmdTag = List.take 4 textTag := by
    rw [← h4, ← h5, List.take_take]
    norm_num
  exact absurd e (by decide)

theorem classify_unknown (cmd : List Char) (h : recognizedShape cmd = false) :
    classify cmd = Shape.unknown := by
  simp only [recognizedShape, Bool.or_eq_false_iff, mouseTokens,
    List.contains_cons, List.contains_nil, Bool.or_eq_false_iff] at h
  obtain ⟨⟨⟨h1, h2, h3, h4, h5, h6, _⟩, h7⟩, h8⟩ := h
  simp only [beq_eq_false_iff_ne, ne_eq] at h1 h2 h3 h4 h5 h6
  simp [classify, h1, h2, h3, h4, h5, h6, h7, h8]

theorem shapeCount_le_one (cmd : List Char) : shapeCount cmd ≤ 1 := by
  by_cases hm : mouseTokens.contains cmd = true
  · simp only [mouseTokens, List.contains_cons, List.contains_nil,
      Bool.or_eq_true, beq_iff_eq] at hm
    rcases hm with h | h | h | h | h | h | h
    all_goals first
      | (subst h; decide)
      | exact absurd h (by decide)
  · rw [Bool.not_eq_true] at hm
    by_cases hc : startsWith cmdTag cmd = true
    · have ht : startsWith textTag cmd = false := by
        cases hb : startsWith textTag cmd
        · rfl
        · exact absurd ⟨hc, hb⟩ (tags_exclusive cmd)
      simp only [shapeCount, hm, hc, ht]
      simp
    · rw [Bool.not_eq_true] at hc
      cases hb : startsWith textTag cmd
      · simp only [shapeCount, hm, hc, hb]
        simp
      · simp only [shapeCount, hm, hc, hb]
        simp

/-! ### Whitespace-padding lemmas -/

theorem pyLstrip_ws_append (p l : List Char) (h : ∀ c ∈ p, pyWs c = true) :
    pyLstrip (p ++ l) = pyLstrip l :=
  dropWhile_append_all pyWs p l h

theorem pyRstrip_ws_append (l s : List Char) (h : ∀ c ∈ s, pyWs c = true) :
    pyRstrip (l ++ s) = pyRstrip l := by
  simp only [pyRstrip, List.reverse_append]
  rw [dropWhile_append_all pyWs s.reverse l.reverse
    (fun c hc => h c (List.mem_reverse.mp hc))]

theorem pyRstrip_nil : pyRstrip [] = [] := rfl

theorem pyStrip_pad (p l s : List Char) (hp : ∀ c ∈ p, pyWs c = true)
    (hs : ∀ c ∈ s, pyWs c = true) :
    pyStrip (p ++ l ++ s) = pyStrip l := by
  rw [pyStrip, List.append_assoc, pyLstrip_ws_append p (l ++ s) hp, pyStrip]
  rw [pyLstrip, pyLstrip, List.dropWhile_append]
  by_cases he : (List.dropWhile pyWs l).isEmpty
  · simp only [he, if_true]
    rw [List.isEmpty_iff] at he
    rw [he, pyRstrip_nil]
    rw [show List.dropWhile pyWs s = List.dropWhile pyWs (s ++ []) by simp,
      dropWhile_append_all pyWs s [] hs]
    rfl
  · simp only [he, if_false]
    exact pyRstrip_ws_append _ s hs

theorem pyRstrip_newline (t : List Char) : pyRstrip (t ++ ['\n']) = pyRstrip t := by
  exact pyRstrip_ws_append t ['\n'] (by decide)

/-! ### The claims -/

/-- Claim C1: each literal mouse token dispatches to exactly the single
corresponding mouse call with fixed magnitude 10 and no other HID effect. -/
theorem C1_mouse_tokens :
    dispatchLine ("up".toList) = [Ev.mouseMove 0 (-10)] ∧
    dispatchLine ("down".toList) = [Ev.mouseMove 0 10] ∧
    dispatchLine ("left".toList) = [Ev.mouseMove (-10) 0] ∧
    dispatchLine ("right".toList) = [Ev.mouseMove 10 0] ∧
    dispatchLine ("left_click".toList) = [Ev.mouseClick LEFT_BUTTON] ∧
    dispatchLine ("right_click".toList) = [Ev.mouseClick RIGHT_BUTTON] := by
  decide

/-- Claim C2, counterexample: the line `CMD:SHIFT:X` has the form `CMD:<NAME>`
with NAME = `SHIFT:X` outside the supported set, yet dispatch emits a
RIGHT_SHIFT keystroke, because the code matches `cmd.split(":")[1]`, the
segment of NAME before its first colon. -/
theorem C2_cex :
    dispatchLine ("CMD:SHIFT:X".toList) = [Ev.kbSend [Keycode.RIGHT_SHIFT]] ∧
      ("SHIFT:X".toList ∈ supportedCmdNames → False) := by
  decide

/-- Claim C2, amended: a `CMD:<NAME>` line is dispatched on the segment of
NAME before its first colon (after trailing-whitespace strip): each supported
segment yields exactly its documented key sequence, any other segment is a
no-op. -/
theorem C2_cmd_names :
    (∀ name, dispatchLine (cmdTag ++ name) =
        shapeEvents (Shape.cmdKey ((pyRstrip name).takeWhile (fun c => c ≠ ':')))) ∧
    dispatchLine ("CMD:SHIFT".toList) = [Ev.kbSend [Keycode.RIGHT_SHIFT]] ∧
    dispatchLine ("CMD:BACKSPACE".toList) = [Ev.kbSend [Keycode.BACKSPACE]] ∧
    dispatchLine ("CMD:ENTER".toList) = [Ev.kbSend [Keycode.ENTER]] ∧
    dispatchLine ("CMD:CTRL_ALT_DEL".toList) =
      [Ev.kbPress [Keycode.CONTROL, Keycode.ALT, Keycode.DELETE], Ev.kbReleaseAll] ∧
    dispatchLine ("CMD:WIN_3".toList) =
      [Ev.kbPress [Keycode.WINDOWS, Keycode.THREE], Ev.kbReleaseAll] ∧
    dispatchLine ("CMD:VOLUME_UP".toList) = [] ∧
    dispatchLine ("CMD:".toList) = [] := by
  refine ⟨?_, by decide, by decide, by decide, by decide, by decide,
    by decide, by decide⟩
  intro name
  simp only [dispatchLine]
  rw [pyStrip_cmdTag, classify_cmdTag]

/-- Claim C3: over ASCII payloads, `type_text` strikes exactly one key
combination per supported character (SHIFT held exactly for uppercase letters
and shifted punctuation), none per unsupported character, in payload order;
`Hi!` yields shifted H, plain I, shifted 1. -/
theorem C3_type_text :
    (∀ p : List Char, (∀ c ∈ p, c.toNat < 128) →
        chords (type_text p) = p.flatMap specCharKeystrokes) ∧
    chords (type_text ("Hi!".toList)) =
      [[Keycode.SHIFT, letterKeycode 'H'], [letterKeycode 'i'],
        [Keycode.SHIFT, Keycode.ONE]] :=
  ⟨fun p _ => chords_type_text p, by decide⟩

/-- Witness for C3 at the concrete payload `Hi!`. -/
theorem C3_witness :
    chords (type_text ("Hi!".toList)) = ("Hi!".toList).flatMap specCharKeystrokes :=
  C3_type_text.1 ("Hi!".toList) (by decide)

/-- Claim C4, counterexample: `hid_text = "hi "` (trailing space, no newline)
is encoded as `TEXT:hi \n`, but the device strips the whole line, so the
payload handed to `type_text` is `hi`, not `hi ` unchanged. -/
theorem C4_cex :
    (send_key (ReqBody.mk none none (some ("hi ".toList)))).writes =
      [("TEXT:hi \n".toList)] ∧
    classify (pyStrip (readLine1 ("TEXT:hi \n".toList)).1) =
      Shape.text ("hi".toList) ∧
    ("hi".toList = "hi ".toList → False) := by
  decide

/-- Claim C4, amended: for newline-free ASCII `hid_text`, the host writes
exactly `TEXT:<text>\n`, the device read consumes the whole transmission as
one line, and the one TEXT dispatch hands `type_text` the payload `<text>`
with its trailing whitespace stripped (so `<text>` unchanged exactly when it
has no trailing whitespace). -/
theorem C4_keyboard_roundtrip (t : List Char) (hnl : '\n' ∉ t)
    (hascii : ∀ c ∈ t, c.toNat < 128) :
    (send_key (ReqBody.mk none none (some t))).writes = [textTag ++ t ++ ['\n']] ∧
    readLine1 (textTag ++ t ++ ['\n']) = (textTag ++ t ++ ['\n'], []) ∧
    classify (pyStrip (textTag ++ t ++ ['\n'])) = Shape.text (pyRstrip t) := by
  have hall : ∀ c ∈ textTag ++ t, (fun c => decide (c ≠ '\n')) c = true := by
    intro c hc
    rcases List.mem_append.mp hc with h | h
    · fin_cases h <;> decide
    · simp only [decide_eq_true_eq]
      intro he
      exact hnl (he ▸ h)
  refine ⟨?_, ?_, ?_⟩
  · simp [send_key, send_to_pico]
  · have hd : List.dropWhile (fun c => decide (c ≠ '\n'))
        ((textTag ++ t) ++ ['\n']) = ['\n'] := by
      rw [dropWhile_append_all _ (textTag ++ t) ['\n'] hall]
      rfl
    have ht2 : List.takeWhile (fun c => decide (c ≠ '\n'))
        ((textTag ++ t) ++ ['\n']) = textTag ++ t := by
      rw [takeWhile_append_all _ (textTag ++ t) ['\n'] hall]
      simp
    simp only [readLine1, ← List.append_assoc, hd, ht2]
  · rw [List.append_assoc, pyStrip_textTag, pyRstrip_newline, classify_textTag]

/-- Witness for C4 at the concrete text `hello`. -/
theorem C4_witness :
    classify (pyStrip (textTag ++ "hello".toList ++ ['\n'])) =
      Shape.text (pyRstrip ("hello".toList)) :=
  (C4_keyboard_roundtrip ("hello".toList) (by decide) (by decide)).2.2

/-- Claim C5: every accepted command request performs exactly one serial
write, whose bytes are the encoded command line: `hid_action` verbatim,
`hid_key` prefixed `CMD:`, `hid_text` prefixed `TEXT:`, each
newline-terminated. -/
theorem C5_single_write :
    (∀ d a, d.hid_action = some a → (mouse_control d).writes = [a ++ ['\n']]) ∧
    (∀ d k, d.hid_key = some k →
      (send_key d).writes = [cmdTag ++ k ++ ['\n']]) ∧
    (∀ d t, d.hid_key = none → d.hid_text = some t →
      (send_key d).writes = [textTag ++ t ++ ['\n']]) := by
  refine ⟨?_, ?_, ?_⟩
  · intro d a h
    simp [mouse_control, h, send_to_pico]
  · intro d k h
    simp [send_key, h, send_to_pico]
  · intro d t h1 h2
    simp [send_key, h1, h2, send_to_pico]

/-- Witness for C5 at the concrete request `hid_action = up`. -/
theorem C5_witness :
    (mouse_control (ReqBody.mk (some ("up".toList)) none none)).writes =
      ["up".toList ++ ['\n']] :=
  C5_single_write.1 (ReqBody.mk (some ("up".toList)) none none) ("up".toList) rfl

/-- Claim C6 (code bug): the serial write happens, but both handlers end
without a `return` statement, so the response is Python's `None` — there is
no acknowledgement payload at all (and in particular no claim of device-side
success). -/
theorem C6_no_ack_response :
    (mouse_control (ReqBody.mk (some ("up".toList)) none none)).writes =
      ["up\n".toList] ∧
    (mouse_control (ReqBody.mk (some ("up".toList)) none none)).response = none ∧
    (send_key (ReqBody.mk none (some ("ENTER".toList)) none)).response = none ∧
    (send_key (ReqBody.mk none none (some ("hi".toList)))).response = none := by
  decide

/-- Claim C7: a line matching no recognized shape (empty, whitespace-only,
`foobar`, ...) dispatches no HID event, the loop goes on to the next line,
and no stripped line matches more than one shape family. -/
theorem C7_unrecognized :
    (∀ l, recognizedShape (pyStrip l) = false → dispatchLine l = []) ∧
    dispatchLine ("".toList) = [] ∧
    dispatchLine ("   ".toList) = [] ∧
    dispatchLine ("foobar".toList) = [] ∧
    (∀ l rest, runLoop (l :: rest) = dispatchLine l ++ runLoop rest) ∧
    (∀ cmd, shapeCount cmd ≤ 1) := by
  refine ⟨?_, by decide, by decide, by decide, ?_, shapeCount_le_one⟩
  · intro l h
    simp only [dispatchLine, classify_unknown _ h, shapeEvents]
  · intro l rest
    simp [runLoop]

/-- Witness for C7 at the concrete line `foobar!`. -/
theorem C7_witness : dispatchLine ("foobar!".toList) = [] :=
  C7_unrecognized.1 ("foobar!".toList) (by decide)

/-- Claim C8: dispatch is stateless and deterministic — the keyboard returns
to the neutral (no key pressed) state after every dispatched line, and running
the loop on the same line twice yields that line's event sequence twice. -/
theorem C8_stateless :
    (∀ line, kbAfter ∅ (dispatchLine line) = ∅) ∧
    (∀ line, runLoop [line, line] = dispatchLine line ++ dispatchLine line) := by
  constructor
  · intro line
    simp only [dispatchLine]
    exact kbAfter_shapeEvents _
  · intro line
    simp [runLoop]

/-- Claim C9: the protocol is one-way — no dispatched line, and no run of the
loop, ever emits a UART write back to the host. -/
theorem C9_one_way :
    (∀ line, (dispatchLine line).filter Ev.isUart = []) ∧
    (∀ lines, (runLoop lines).filter Ev.isUart = []) := by
  have h1 : ∀ line, (dispatchLine line).filter Ev.isUart = [] := by
    intro line
    simp only [dispatchLine]
    exact noUart_shapeEvents _
  refine ⟨h1, ?_⟩
  intro lines
  induction lines with
  | nil => rfl
  | cons a l ih =>
    simp only [runLoop, List.flatMap_cons] at *
    rw [List.filter_append, h1, ih]
    rfl

/-- Claim C10, counterexample: `strip` acts on the whole line, not on the
TEXT payload — `TEXT: hi` keeps its leading payload space, so it is not
dispatched like `TEXT:hi` would be. -/
theorem C10_cex :
    classify (pyStrip ("TEXT: hi".toList)) = Shape.text (" hi".toList) ∧
    (dispatchLine ("TEXT: hi".toList) = dispatchLine ("TEXT:hi".toList) → False) := by
  decide

/-- Claim C10, amended: whitespace padding around a whole line never changes
its dispatch (`  up  ` acts as `up`), and a `TEXT:` payload loses exactly its
trailing whitespace — leading payload whitespace survives to `type_text`. -/
theorem C10_strip_invariance :
    (∀ p l s, (∀ c ∈ p, pyWs c = true) → (∀ c ∈ s, pyWs c = true) →
      dispatchLine (p ++ l ++ s) = dispatchLine l) ∧
    dispatchLine ("  up  ".toList) = [Ev.mouseMove 0 (-10)] ∧
    (∀ t, classify (pyStrip (textTag ++ t)) = Shape.text (pyRstrip t)) := by
  refine ⟨?_, by decide, ?_⟩
  · intro p l s hp hs
    simp only [dispatchLine]
    rw [pyStrip_pad p l s hp hs]
  · intro t
    rw [pyStrip_textTag, classify_textTag]

/-- Witness for C10: a space-padded `up` dispatches exactly as bare `up`. -/
theorem C10_witness :
    dispatchLine (" ".toList ++ "up".toList ++ " ".toList) =
      dispatchLine ("up".toList) :=
  C10_strip_invariance.1 (" ".toList) ("up".toList) (" ".toList)
    (by decide) (by decide)

end Starlight
